import Mathlib

/-!
# arrow-nanoarrow: `examples/pyexport/pyexport.cpp` and `r/src/init.c`

A shallow embedding of the CUDA export example and of the R call table.

* Native memory, the Python object heap and the CUDA driver are one explicit
  `State` that every operation passes along.
* Calls into code outside the two source files (the CUDA driver, the nanoarrow
  library, the Python runtime) take their result from an outcome record, so a
  theorem quantified over the record covers every way those calls can answer.
* Undefined behaviour of the C++ program (a null dereference) is the result
  `none`.
-/

namespace Pyexport

/-! ## Basic types -/

/-- A native address; `0` is the null pointer. -/
abbrev Ptr := Nat

/-- The null pointer. -/
def NULL : Ptr := 0

/-- The identity of a release callback; a null function pointer is `none`. -/
abbrev ReleaseFn := Nat

/-- A CUDA driver status code. -/
abbrev CUresult := Int

/-- The driver status for success. -/
def CUDA_SUCCESS : CUresult := 0

/-- A CUDA device handle. -/
abbrev CUdevice := Int

/-- A CUDA context handle. -/
abbrev CUcontext := Nat

/-- The identity of a Python object. -/
abbrev ObjId := Nat

/-- The functions outside the source file that the program calls. -/
inductive Callee
  | cuInit
  | cuDeviceGet
  | cuGetErrorString
  | cuDevicePrimaryCtxRetain
  | cuCtxPushCurrent
  | cuCtxPopCurrent
  | cuDevicePrimaryCtxRelease
  | ArrowErrorSet
  | ArrowDeviceCpu
  | ArrowDeviceCuda
  | ArrowArrayInitFromType
  | ArrowArrayStartAppending
  | ArrowArrayAppendInt
  | ArrowArrayFinishBuildingDefault
  | ArrowDeviceArrayInit
  | ArrowDeviceArrayViewInit
  | ArrowArrayViewInitFromType
  | ArrowDeviceArrayViewSetArray
  | ArrowDeviceArrayViewCopy
  | ArrowSchemaInitFromType
  deriving DecidableEq, Repr

/-- The three capsule destructors of the source file, as function identities. -/
inductive Deleter
  | pycapsule_schema_deleter
  | pycapsule_array_deleter
  | pycapsule_device_array_deleter
  deriving DecidableEq, Repr

/-- An observable step of a run, recorded in the order it happens. -/
inductive Event
  /-- A call of an outside function and the status code it returned (0 for a function
  that returns no status). -/
  | call (f : Callee) (ret : Int)
  /-- An invocation `p->array.release(&p->array)` of the release callback `fn`. -/
  | release (fn : ReleaseFn) (p : Ptr)
  /-- A call `ArrowFree(p)`. -/
  | free (p : Ptr)
  /-- A line written to standard output. -/
  | cout (msg : String)
  /-- A call of `PyErr_Print`. -/
  | PyErr_Print
  /-- The Python runtime deallocating capsule `o` and running its destructor `d`. -/
  | destructor (d : Deleter) (o : ObjId)
  deriving DecidableEq, Repr

/-- A Python object: a capsule (pointer, label, destructor) or a tuple of objects. -/
inductive PyObject
  | capsule (pointer : Ptr) (name : String) (destructor : Option Deleter)
  | tuple (items : List ObjId)
  deriving DecidableEq, Repr

/-- A live Python object with its reference count. -/
structure PyEntry where
  refcnt : Nat
  obj : PyObject
  deriving DecidableEq, Repr

/-- The whole machine state. -/
structure State where
  /-- The field `array.release` of the `ArrowDeviceArray` at an address. -/
  arrayRelease : Ptr → Option ReleaseFn
  /-- The field `release` of the `ArrowSchema` at an address. -/
  schemaRelease : Ptr → Option ReleaseFn
  /-- The live Python objects. -/
  objs : ObjId → Option PyEntry
  /-- The identity the next Python allocation gets. -/
  nextId : ObjId
  /-- The stack of current CUDA contexts of the calling thread, top first. -/
  stack : List CUcontext
  /-- The retain count of the primary context of each device. -/
  retained : CUdevice → Nat
  /-- The events so far, oldest first. -/
  events : List Event

/-- Record one event. -/
def State.log (e : Event) (s : State) : State :=
  { s with events := s.events ++ [e] }

/-- Whether an event is an invocation of a release callback. -/
def Event.isRelease : Event → Bool
  | .release _ _ => true
  | _ => false

/-- Whether an event is a call of `ArrowFree`. -/
def Event.isFree : Event → Bool
  | .free _ => true
  | _ => false

/-! ## The CUDA driver -/

/-- What the driver calls made by the constructor of `CudaTemporaryContext` answer. -/
structure CudaOutcomes where
  cuInit : CUresult
  cuDeviceGet : CUresult
  /-- The handle a successful `cuDeviceGet` stores. -/
  device : CUdevice
  cuGetErrorString : CUresult
  cuDevicePrimaryCtxRetain : CUresult
  /-- The handle a successful `cuDevicePrimaryCtxRetain` stores. -/
  context : CUcontext
  cuCtxPushCurrent : CUresult

/-- Driver call `cuInit(flags)`: no effect on the context stack or retain counts. -/
def cuInit (o : CudaOutcomes) (_flags : Nat) (s : State) : CUresult × State :=
  (o.cuInit, s.log (.call .cuInit o.cuInit))

/-- Driver call `cuDeviceGet(&device, ordinal)`: the second component is the handle the
call stores in `device`; it is stored only when the call succeeds. -/
def cuDeviceGet (o : CudaOutcomes) (_ordinal : Int) (s : State) :
    CUresult × CUdevice × State :=
  (o.cuDeviceGet, o.device, s.log (.call .cuDeviceGet o.cuDeviceGet))

/-- Driver call `cuGetErrorString(err, &str)`. -/
def cuGetErrorString (o : CudaOutcomes) (_err : CUresult) (s : State) : CUresult × State :=
  (o.cuGetErrorString, s.log (.call .cuGetErrorString o.cuGetErrorString))

/-- Driver call `cuDevicePrimaryCtxRetain(&ctx, dev)`: on success the retain count of
the primary context of `dev` grows by one and the handle (second component) is stored
in `ctx`; on failure nothing changes and nothing is stored. -/
def cuDevicePrimaryCtxRetain (o : CudaOutcomes) (dev : CUdevice) (s : State) :
    CUresult × CUcontext × State :=
  let s1 := s.log (.call .cuDevicePrimaryCtxRetain o.cuDevicePrimaryCtxRetain)
  if o.cuDevicePrimaryCtxRetain = CUDA_SUCCESS then
    (o.cuDevicePrimaryCtxRetain, o.context,
      { s1 with retained := Function.update s1.retained dev (s1.retained dev + 1) })
  else
    (o.cuDevicePrimaryCtxRetain, o.context, s1)

/-- Driver call `cuCtxPushCurrent(ctx)`: on success `ctx` becomes the top of the stack. -/
def cuCtxPushCurrent (o : CudaOutcomes) (ctx : CUcontext) (s : State) : CUresult × State :=
  let s1 := s.log (.call .cuCtxPushCurrent o.cuCtxPushCurrent)
  if o.cuCtxPushCurrent = CUDA_SUCCESS then
    (o.cuCtxPushCurrent, { s1 with stack := ctx :: s1.stack })
  else
    (o.cuCtxPushCurrent, s1)

/-- The driver status `CUDA_ERROR_INVALID_CONTEXT`. -/
def CUDA_ERROR_INVALID_CONTEXT : CUresult := 201

/-- Driver call `cuCtxPopCurrent(&ctx)`: pops the top of the stack when there is one. -/
def cuCtxPopCurrent (s : State) : CUresult × State :=
  match s.stack with
  | [] => (CUDA_ERROR_INVALID_CONTEXT, s.log (.call .cuCtxPopCurrent CUDA_ERROR_INVALID_CONTEXT))
  | _ :: rest =>
    (CUDA_SUCCESS, { s.log (.call .cuCtxPopCurrent CUDA_SUCCESS) with stack := rest })

/-- Driver call `cuDevicePrimaryCtxRelease(dev)`: gives back one retain when there is one. -/
def cuDevicePrimaryCtxRelease (dev : CUdevice) (s : State) : CUresult × State :=
  if s.retained dev = 0 then
    (CUDA_ERROR_INVALID_CONTEXT,
      s.log (.call .cuDevicePrimaryCtxRelease CUDA_ERROR_INVALID_CONTEXT))
  else
    (CUDA_SUCCESS,
      { s.log (.call .cuDevicePrimaryCtxRelease CUDA_SUCCESS) with
        retained := Function.update s.retained dev (s.retained dev - 1) })

/-! ## `class CudaTemporaryContext` (pyexport.cpp lines 14-54) -/

/-- The private members; a member that was never written is `none`. -/
structure CudaTemporaryContext where
  initialized_ : Bool
  device_ : Option CUdevice
  context_ : Option CUcontext
  deriving DecidableEq, Repr

/-- The constructor `CudaTemporaryContext(int device_id)`, lines 16-38. On an early
return the members the failed call would have stored stay unwritten. -/
def CudaTemporaryContext.construct (o : CudaOutcomes) (device_id : Int) (s : State) :
    CudaTemporaryContext × State :=
  let (err, s) := cuInit o 0 s
  if err ≠ CUDA_SUCCESS then
    (⟨false, none, none⟩, s)
  else
    let (err, dev, s) := cuDeviceGet o device_id s
    let (_, s) := cuGetErrorString o err s
    if err ≠ CUDA_SUCCESS then
      (⟨false, none, none⟩, s)
    else
      let (err, ctx, s) := cuDevicePrimaryCtxRetain o dev s
      if err ≠ CUDA_SUCCESS then
        (⟨false, some dev, none⟩, s)
      else
        let (_, s) := cuCtxPushCurrent o ctx s
        (⟨true, some dev, some ctx⟩, s)

/-- The member `bool valid()`, line 40. -/
def CudaTemporaryContext.valid (c : CudaTemporaryContext) : Bool :=
  c.initialized_

/-- The destructor `~CudaTemporaryContext()`, lines 42-48. When `initialized_` holds
the constructor has written `device_`, so the `none` branch is never taken. -/
def CudaTemporaryContext.destruct (c : CudaTemporaryContext) (s : State) : State :=
  if c.initialized_ then
    let (_, s) := cuCtxPopCurrent s
    match c.device_ with
    | some dev => (cuDevicePrimaryCtxRelease dev s).2
    | none => s
  else
    s

/-! ## The Python runtime -/

/-- Whether each Python allocation made by `pyexport_make_device_array` finds memory. -/
structure PyOutcomes where
  schemaCapsule : Bool
  deviceArrayCapsule : Bool
  resultTuple : Bool

/-- Runtime call `PyCapsule_New(pointer, name, destructor)`: refuses a null pointer, can
fail for lack of memory, and otherwise returns a new capsule holding one reference. -/
def PyCapsule_New (ok : Bool) (pointer : Ptr) (name : String) (destructor : Option Deleter)
    (s : State) : Option ObjId × State :=
  if pointer = NULL ∨ ok = false then
    (none, s)
  else
    (some s.nextId,
      { s with
        objs := Function.update s.objs s.nextId (some ⟨1, .capsule pointer name destructor⟩)
        nextId := s.nextId + 1 })

/-- Runtime call `PyCapsule_GetPointer(capsule, name)`: the wrapped pointer when `name`
equals the label the capsule was created with, and `NULL` otherwise. -/
def PyCapsule_GetPointer (s : State) (capsule : ObjId) (name : String) : Ptr :=
  match s.objs capsule with
  | some ⟨_, .capsule pointer label _⟩ => if label = name then pointer else NULL
  | _ => NULL

/-- Runtime operation `Py_INCREF(o)`; a null or dead object is undefined behaviour. -/
def Py_INCREF (o : Option ObjId) (s : State) : Option State :=
  match o with
  | none => none
  | some id =>
    match s.objs id with
    | none => none
    | some e =>
      some { s with objs := Function.update s.objs id (some { e with refcnt := e.refcnt + 1 }) }

/-- Runtime call `PyTuple_Pack(n, ...)`: allocates the tuple (the result is `NULL` when
that fails) and takes one new reference to every item. -/
def PyTuple_Pack (ok : Bool) (items : List (Option ObjId)) (s : State) :
    Option (Option ObjId × State) :=
  if ok = false then
    some (none, s)
  else
    let t := s.nextId
    match items.foldlM (fun s o => Py_INCREF o s) { s with nextId := s.nextId + 1 } with
    | none => none
    | some s =>
      some (some t,
        { s with objs := Function.update s.objs t (some ⟨1, .tuple items.reduceOption⟩) })

/-! ## The nanoarrow library -/

/-- What the nanoarrow calls made by `make_simple_device_array` answer. A `stores` field
says what the call leaves in the `release` member of its output structure: `none` when
the call does not write it, `some v` when it writes `v`. -/
structure NanoarrowOutcomes where
  ArrowErrorSet : Int
  ArrowArrayInitFromType : Int
  ArrowArrayStartAppending : Int
  ArrowArrayAppendInt1 : Int
  ArrowArrayAppendInt2 : Int
  ArrowArrayAppendInt3 : Int
  ArrowArrayFinishBuildingDefault : Int
  ArrowDeviceArrayInit : Int
  ArrowDeviceArrayViewSetArray : Int
  ArrowDeviceArrayViewCopy : Int
  copyStores : Option (Option ReleaseFn)
  ArrowSchemaInitFromType : Int
  schemaStores : Option (Option ReleaseFn)

/-- A call of an outside function that only returns a status. -/
def State.callOut (f : Callee) (ret : Int) (s : State) : Int × State :=
  (ret, s.log (.call f ret))

/-- Library call `ArrowDeviceArrayViewCopy(src, device_dst, dst)` as far as `dst` goes. -/
def ArrowDeviceArrayViewCopy (o : NanoarrowOutcomes) (dst : Ptr) (s : State) : Int × State :=
  let s := s.log (.call .ArrowDeviceArrayViewCopy o.ArrowDeviceArrayViewCopy)
  match o.copyStores with
  | none => (o.ArrowDeviceArrayViewCopy, s)
  | some v =>
    (o.ArrowDeviceArrayViewCopy, { s with arrayRelease := Function.update s.arrayRelease dst v })

/-- Library call `ArrowSchemaInitFromType(schema, type)` as far as `schema` goes. -/
def ArrowSchemaInitFromType (o : NanoarrowOutcomes) (schema : Ptr) (s : State) : Int × State :=
  let s := s.log (.call .ArrowSchemaInitFromType o.ArrowSchemaInitFromType)
  match o.schemaStores with
  | none => (o.ArrowSchemaInitFromType, s)
  | some v =>
    (o.ArrowSchemaInitFromType,
      { s with schemaRelease := Function.update s.schemaRelease schema v })

/-- Library call `ArrowFree(p)`. -/
def ArrowFree (p : Ptr) (s : State) : State :=
  s.log (.free p)

/-- Modelled from the spec: the body of a release callback is not part of the source
files; by the release protocol it marks the structure released by setting its own
`release` member to null. -/
def invokeRelease (fn : ReleaseFn) (p : Ptr) (s : State) : State :=
  { s.log (.release fn p) with arrayRelease := Function.update s.arrayRelease p none }

/-! ## The capsule destructors (pyexport.cpp lines 56-78) -/

/-- The function `pycapsule_schema_deleter`, lines 56-62. -/
def pycapsule_schema_deleter (capsule : ObjId) (s : State) : Option State :=
  let schema := PyCapsule_GetPointer s capsule "arrow_schema"
  if schema = NULL then
    some s
  else
    some (ArrowFree schema s)

/-- The function `pycapsule_array_deleter`, lines 64-70. `ArrowArrayRelease(array)` calls
`array->release(array)`; calling a null function pointer is undefined behaviour. -/
def pycapsule_array_deleter (capsule : ObjId) (s : State) : Option State :=
  let array := PyCapsule_GetPointer s capsule "arrow_array"
  if array ≠ NULL then
    match s.arrayRelease array with
    | none => none
    | some fn => some (ArrowFree array (invokeRelease fn array s))
  else
    some (ArrowFree array s)

/-- The function `pycapsule_device_array_deleter`, lines 72-78. The array is the first
member of the device array, so both have the same address. Reading through a null
`device_array` is undefined behaviour. -/
def pycapsule_device_array_deleter (capsule : ObjId) (s : State) : Option State :=
  let device_array := PyCapsule_GetPointer s capsule "arrow_device_array"
  if device_array = NULL then
    none
  else
    match s.arrayRelease device_array with
    | some fn => some (ArrowFree device_array (invokeRelease fn device_array s))
    | none => some (ArrowFree device_array s)

/-- Calling a capsule destructor through its function pointer. -/
def callDeleter : Deleter → ObjId → State → Option State
  | .pycapsule_schema_deleter => pycapsule_schema_deleter
  | .pycapsule_array_deleter => pycapsule_array_deleter
  | .pycapsule_device_array_deleter => pycapsule_device_array_deleter

/-- Runtime operation `Py_DECREF(o)`. Dropping the last reference deallocates the object:
a capsule runs its destructor (while the capsule still exists) and is then freed; a
tuple drops its references to its items, last item first, and is then freed. The first
argument bounds the nesting depth of deallocations; `none` is undefined behaviour
(a null or dead object) or an exhausted bound. -/
def Py_DECREF : Nat → Option ObjId → State → Option State
  | 0, _, _ => none
  | _ + 1, none, _ => none
  | fuel + 1, some id, s =>
    match s.objs id with
    | none => none
    | some e =>
      if 1 < e.refcnt then
        some { s with objs := Function.update s.objs id (some { e with refcnt := e.refcnt - 1 }) }
      else
        let s := { s with objs := Function.update s.objs id (some { e with refcnt := 0 }) }
        let r :=
          match e.obj with
          | .capsule _ _ none => some s
          | .capsule _ _ (some d) => callDeleter d id (s.log (.destructor d id))
          | .tuple items => items.reverse.foldlM (fun s i => Py_DECREF fuel (some i) s) s
        r.map (fun s => { s with objs := Function.update s.objs id none })

/-! ## `make_simple_device_array` (pyexport.cpp lines 80-111) -/

/-- The function `make_simple_device_array`. Every status a call returns is dropped.
Writing through a null `device_array2` is undefined behaviour. -/
def make_simple_device_array (o : NanoarrowOutcomes) (device_array2 schema : Ptr)
    (s : State) : Option (Int × State) :=
  let (_, s) := s.callOut .ArrowErrorSet o.ArrowErrorSet
  let (_, s) := s.callOut .ArrowDeviceCpu 0
  let (_, s) := s.callOut .ArrowDeviceCuda 0
  let (_, s) := s.callOut .ArrowArrayInitFromType o.ArrowArrayInitFromType
  let (_, s) := s.callOut .ArrowArrayStartAppending o.ArrowArrayStartAppending
  let (_, s) := s.callOut .ArrowArrayAppendInt o.ArrowArrayAppendInt1
  let (_, s) := s.callOut .ArrowArrayAppendInt o.ArrowArrayAppendInt2
  let (_, s) := s.callOut .ArrowArrayAppendInt o.ArrowArrayAppendInt3
  let (_, s) := s.callOut .ArrowArrayFinishBuildingDefault o.ArrowArrayFinishBuildingDefault
  let (_, s) := s.callOut .ArrowDeviceArrayInit o.ArrowDeviceArrayInit
  let (_, s) := s.callOut .ArrowDeviceArrayViewInit 0
  let (_, s) := s.callOut .ArrowArrayViewInitFromType 0
  let (_, s) := s.callOut .ArrowDeviceArrayViewSetArray o.ArrowDeviceArrayViewSetArray
  if device_array2 = NULL then
    none
  else
    let s := { s with arrayRelease := Function.update s.arrayRelease device_array2 none }
    let (_, s) := ArrowDeviceArrayViewCopy o device_array2 s
    let (_, s) := ArrowSchemaInitFromType o schema s
    some (0, s)

/-! ## `pyexport_make_device_array` (pyexport.cpp lines 113-145) -/

/-- The function `pyexport_make_device_array`. The two pointer arguments are what the two
`ArrowMalloc` calls of lines 116-117 returned. The result `none` is undefined behaviour;
otherwise the first component is the returned object, `none` for `NULL`. The local `ctx`
is destroyed on each return. The objects dropped by the two `Py_DECREF` calls are
capsules, whose deallocation does not nest, so the depth bound 1 is enough for them. -/
def pyexport_make_device_array (no : NanoarrowOutcomes) (co : CudaOutcomes) (po : PyOutcomes)
    (simple_device_array simple_schema : Ptr) (s : State) : Option (Option ObjId × State) :=
  if simple_schema = NULL then
    none
  else
    let s := { s with schemaRelease := Function.update s.schemaRelease simple_schema none }
    match make_simple_device_array no simple_device_array simple_schema s with
    | none => none
    | some (_, s) =>
      let (ctx, s) := CudaTemporaryContext.construct co 0 s
      let s := if ctx.valid = false then s.log (.cout "Failed to initialize CUDA context") else s
      let (schema_base, s) :=
        PyCapsule_New po.schemaCapsule simple_schema "arrow_schema"
          (some .pycapsule_schema_deleter) s
      if schema_base = none then
        some (none, ctx.destruct (s.log .PyErr_Print))
      else
        let (device_array_base, s) :=
          PyCapsule_New po.deviceArrayCapsule simple_device_array "arrow_device_array"
            (some .pycapsule_device_array_deleter) s
        match PyTuple_Pack po.resultTuple [device_array_base, schema_base] s with
        | none => none
        | some (result_tuple, s) =>
          match Py_DECREF 1 schema_base s with
          | none => none
          | some s =>
            match Py_DECREF 1 device_array_base s with
            | none => none
            | some s => some (result_tuple, ctx.destruct s)

/-! ## Concrete inputs -/

/-- A state in which context 7 is current, no primary context is retained, no Python
object is live, and native memory holds stale non-null release pointers. -/
def exampleState : State :=
  { arrayRelease := fun _ => some 99
    schemaRelease := fun _ => some 98
    objs := fun _ => none
    nextId := 10
    stack := [7]
    retained := fun _ => 0
    events := [] }

/-- Every driver call succeeds; the device handle is 0 and the context handle 42. -/
def cudaAllOk : CudaOutcomes :=
  { cuInit := 0, cuDeviceGet := 0, device := 0, cuGetErrorString := 0,
    cuDevicePrimaryCtxRetain := 0, context := 42, cuCtxPushCurrent := 0 }

/-- The call `cuInit` fails with `CUDA_ERROR_NO_DEVICE` (100). -/
def cudaInitFails : CudaOutcomes :=
  { cudaAllOk with cuInit := 100 }

/-- The call `cuDeviceGet` fails with `CUDA_ERROR_INVALID_DEVICE` (101). -/
def cudaDeviceGetFails : CudaOutcomes :=
  { cudaAllOk with cuDeviceGet := 101 }

/-- Only `cuCtxPushCurrent` fails, with `CUDA_ERROR_INVALID_VALUE` (1). -/
def cudaPushFails : CudaOutcomes :=
  { cudaAllOk with cuCtxPushCurrent := 1 }

/-- Every nanoarrow call succeeds; the copy stores release callback 5 in the output
device array and the schema initialisation stores release callback 6 in the schema. -/
def nanoarrowAllOk : NanoarrowOutcomes :=
  { ArrowErrorSet := 0, ArrowArrayInitFromType := 0, ArrowArrayStartAppending := 0,
    ArrowArrayAppendInt1 := 0, ArrowArrayAppendInt2 := 0, ArrowArrayAppendInt3 := 0,
    ArrowArrayFinishBuildingDefault := 0, ArrowDeviceArrayInit := 0,
    ArrowDeviceArrayViewSetArray := 0, ArrowDeviceArrayViewCopy := 0,
    copyStores := some (some 5), ArrowSchemaInitFromType := 0,
    schemaStores := some (some 6) }

/-- The copy to the CUDA device fails with `ENOTSUP` (95) and leaves its output alone;
every other nanoarrow call succeeds. -/
def nanoarrowCopyFails : NanoarrowOutcomes :=
  { nanoarrowAllOk with ArrowDeviceArrayViewCopy := 95, copyStores := none }

/-- Every Python allocation succeeds. -/
def pyAllOk : PyOutcomes :=
  { schemaCapsule := true, deviceArrayCapsule := true, resultTuple := true }

/-- A state holding, as object 10, a capsule labelled "arrow_device_array" around the
device array at address 1, whose `array.release` is callback 5. -/
def deviceArrayCapsuleState : State :=
  { exampleState with
    arrayRelease := fun _ => some 5
    objs := Function.update exampleState.objs 10
      (some ⟨0, .capsule 1 "arrow_device_array" (some .pycapsule_device_array_deleter)⟩) }

/-- The state a run ends in; `exampleState` for a run that is undefined behaviour. -/
def finalState (r : Option (Option ObjId × State)) : State :=
  match r with
  | some (_, s) => s
  | none => exampleState

/-- The state after the run from `exampleState` in which every call succeeds, with the
device array allocated at address 1 and the schema at address 2. -/
def exampleFinalOk : State :=
  finalState (pyexport_make_device_array nanoarrowAllOk cudaAllOk pyAllOk 1 2 exampleState)

/-- The state after the run from `exampleState` in which only the copy to the CUDA
device fails. -/
def exampleFinalCopyFails : State :=
  finalState (pyexport_make_device_array nanoarrowCopyFails cudaAllOk pyAllOk 1 2 exampleState)

end Pyexport

namespace RInit

/-! ## `r/src/init.c` -/

/-- One prototype `extern SEXP name(...)` of init.c lines 26-84: the function name and
the names of its `SEXP` parameters, none for a `(void)` prototype. -/
structure Prototype where
  name : String
  params : List String
  deriving DecidableEq, Repr

/-- The prototypes of init.c lines 26-84, in source order. -/
def declarations : List Prototype :=
  [⟨"nanoarrow_c_make_altrep_chr", ["array_xptr"]⟩,
   ⟨"nanoarrow_c_is_altrep", ["x_sexp"]⟩,
   ⟨"nanoarrow_c_altrep_is_materialized", ["x_sexp"]⟩,
   ⟨"nanoarrow_c_altrep_force_materialize", ["x_sexp", "recursive_sexp"]⟩,
   ⟨"nanoarrow_c_array_stream_get_schema", ["array_stream_xptr"]⟩,
   ⟨"nanoarrow_c_array_stream_get_next", ["array_stream_xptr"]⟩,
   ⟨"nanoarrow_c_basic_array_stream", ["batches_sexp", "schema_xptr", "validate_sexp"]⟩,
   ⟨"nanoarrow_c_array_view", ["array_xptr", "schema_xptr"]⟩,
   ⟨"nanoarrow_c_array_init", ["schema_xptr"]⟩,
   ⟨"nanoarrow_c_array_set_length", ["array_xptr", "length_sexp"]⟩,
   ⟨"nanoarrow_c_array_set_null_count", ["array_xptr", "null_count_sexp"]⟩,
   ⟨"nanoarrow_c_array_set_offset", ["array_xptr", "offset_sexp"]⟩,
   ⟨"nanoarrow_c_array_set_buffers", ["array_xptr", "buffers_sexp"]⟩,
   ⟨"nanoarrow_c_array_set_children", ["array_xptr", "children_sexp"]⟩,
   ⟨"nanoarrow_c_array_set_dictionary", ["array_xptr", "dictionary_xptr"]⟩,
   ⟨"nanoarrow_c_array_validate_after_modify", ["array_xptr", "schema_xptr"]⟩,
   ⟨"nanoarrow_c_array_set_schema", ["array_xptr", "schema_xptr", "validate_sexp"]⟩,
   ⟨"nanoarrow_c_infer_schema_array", ["array_xptr"]⟩,
   ⟨"nanoarrow_c_array_proxy", ["array_xptr", "array_view_xptr", "recursive_sexp"]⟩,
   ⟨"nanoarrow_c_as_array_default", ["x_sexp", "schema_sexp"]⟩,
   ⟨"nanoarrow_c_as_buffer_default", ["x_sexp"]⟩,
   ⟨"nanoarrow_c_buffer_append", ["buffer_xptr", "new_buffer_xptr"]⟩,
   ⟨"nanoarrow_c_buffer_info", ["buffer_xptr"]⟩,
   ⟨"nanoarrow_c_buffer_as_raw", ["buffer_xptr"]⟩,
   ⟨"nanoarrow_c_convert_array_stream", ["array_stream_xptr", "ptype_sexp", "size_sexp", "n_sexp"]⟩,
   ⟨"nanoarrow_c_convert_array", ["array_xptr", "ptype_sexp"]⟩,
   ⟨"nanoarrow_c_infer_ptype", ["schema_xptr"]⟩,
   ⟨"nanoarrow_c_allocate_schema", []⟩,
   ⟨"nanoarrow_c_allocate_array", []⟩,
   ⟨"nanoarrow_c_allocate_array_stream", []⟩,
   ⟨"nanoarrow_c_pointer", ["obj_sexp"]⟩,
   ⟨"nanoarrow_c_pointer_addr_dbl", ["ptr"]⟩,
   ⟨"nanoarrow_c_pointer_addr_chr", ["ptr"]⟩,
   ⟨"nanoarrow_c_pointer_addr_pretty", ["ptr"]⟩,
   ⟨"nanoarrow_c_pointer_is_valid", ["ptr"]⟩,
   ⟨"nanoarrow_c_pointer_release", ["ptr"]⟩,
   ⟨"nanoarrow_c_pointer_move", ["ptr_src", "ptr_dst"]⟩,
   ⟨"nanoarrow_c_export_schema", ["schema_xptr", "ptr_dst"]⟩,
   ⟨"nanoarrow_c_export_array", ["array_xptr", "ptr_dst"]⟩,
   ⟨"nanoarrow_c_export_array_stream", ["array_stream_xptr", "ptr_dst"]⟩,
   ⟨"nanoarrow_c_pointer_set_protected", ["ptr_src", "protected_sexp"]⟩,
   ⟨"nanoarrow_c_schema_init", ["type_id_sexp", "nullable_sexp"]⟩,
   ⟨"nanoarrow_c_schema_init_date_time", ["type_id_sexp", "time_unit_sexp", "timezone_sexp", "nullable_sexp"]⟩,
   ⟨"nanoarrow_c_schema_init_decimal", ["type_id_sexp", "precision_sexp", "scale_sexp", "nullable_sexp"]⟩,
   ⟨"nanoarrow_c_schema_init_fixed_size", ["type_id_sexp", "fixed_size_sexp", "nullable_sexp"]⟩,
   ⟨"nanoarrow_c_schema_to_list", ["schema_xptr"]⟩,
   ⟨"nanoarrow_c_schema_parse", ["schema_xptr"]⟩,
   ⟨"nanoarrow_c_schema_format", ["schema_xptr", "recursive_sexp"]⟩,
   ⟨"nanoarrow_c_schema_set_format", ["schema_mut_xptr", "format_sexp"]⟩,
   ⟨"nanoarrow_c_schema_set_name", ["schema_mut_xptr", "name_sexp"]⟩,
   ⟨"nanoarrow_c_schema_set_metadata", ["schema_mut_xptr", "metadata_sexp"]⟩,
   ⟨"nanoarrow_c_schema_set_flags", ["schema_mut_xptr", "flags_sexp"]⟩,
   ⟨"nanoarrow_c_schema_set_children", ["schema_mut_xptr", "children_sexp"]⟩,
   ⟨"nanoarrow_c_schema_set_dictionary", ["schema_mut_xptr", "dictionary_xptr"]⟩,
   ⟨"nanoarrow_c_preserved_count", []⟩,
   ⟨"nanoarrow_c_preserved_empty", []⟩,
   ⟨"nanoarrow_c_preserve_and_release_on_other_thread", ["obj"]⟩,
   ⟨"nanoarrow_c_version", []⟩,
   ⟨"nanoarrow_c_version_runtime", []⟩]

/-- One record of the table: the registered name, the function pointer (named by the
function it points to) and the argument count; `NULL` is `none`. -/
structure R_CallMethodDef where
  name : Option String
  fn : Option String
  numArgs : Int
  deriving DecidableEq, Repr

/-- The table `CallEntries` of init.c lines 86-146, in source order. -/
def CallEntries : List R_CallMethodDef :=
  [⟨some "nanoarrow_c_make_altrep_chr", some "nanoarrow_c_make_altrep_chr", 1⟩,
   ⟨some "nanoarrow_c_is_altrep", some "nanoarrow_c_is_altrep", 1⟩,
   ⟨some "nanoarrow_c_altrep_is_materialized", some "nanoarrow_c_altrep_is_materialized", 1⟩,
   ⟨some "nanoarrow_c_altrep_force_materialize", some "nanoarrow_c_altrep_force_materialize", 2⟩,
   ⟨some "nanoarrow_c_array_stream_get_schema", some "nanoarrow_c_array_stream_get_schema", 1⟩,
   ⟨some "nanoarrow_c_array_stream_get_next", some "nanoarrow_c_array_stream_get_next", 1⟩,
   ⟨some "nanoarrow_c_basic_array_stream", some "nanoarrow_c_basic_array_stream", 3⟩,
   ⟨some "nanoarrow_c_array_view", some "nanoarrow_c_array_view", 2⟩,
   ⟨some "nanoarrow_c_array_init", some "nanoarrow_c_array_init", 1⟩,
   ⟨some "nanoarrow_c_array_set_length", some "nanoarrow_c_array_set_length", 2⟩,
   ⟨some "nanoarrow_c_array_set_null_count", some "nanoarrow_c_array_set_null_count", 2⟩,
   ⟨some "nanoarrow_c_array_set_offset", some "nanoarrow_c_array_set_offset", 2⟩,
   ⟨some "nanoarrow_c_array_set_buffers", some "nanoarrow_c_array_set_buffers", 2⟩,
   ⟨some "nanoarrow_c_array_set_children", some "nanoarrow_c_array_set_children", 2⟩,
   ⟨some "nanoarrow_c_array_set_dictionary", some "nanoarrow_c_array_set_dictionary", 2⟩,
   ⟨some "nanoarrow_c_array_validate_after_modify", some "nanoarrow_c_array_validate_after_modify", 2⟩,
   ⟨some "nanoarrow_c_array_set_schema", some "nanoarrow_c_array_set_schema", 3⟩,
   ⟨some "nanoarrow_c_infer_schema_array", some "nanoarrow_c_infer_schema_array", 1⟩,
   ⟨some "nanoarrow_c_array_proxy", some "nanoarrow_c_array_proxy", 3⟩,
   ⟨some "nanoarrow_c_as_array_default", some "nanoarrow_c_as_array_default", 2⟩,
   ⟨some "nanoarrow_c_as_buffer_default", some "nanoarrow_c_as_buffer_default", 1⟩,
   ⟨some "nanoarrow_c_buffer_append", some "nanoarrow_c_buffer_append", 2⟩,
   ⟨some "nanoarrow_c_buffer_info", some "nanoarrow_c_buffer_info", 1⟩,
   ⟨some "nanoarrow_c_buffer_as_raw", some "nanoarrow_c_buffer_as_raw", 1⟩,
   ⟨some "nanoarrow_c_convert_array_stream", some "nanoarrow_c_convert_array_stream", 4⟩,
   ⟨some "nanoarrow_c_convert_array", some "nanoarrow_c_convert_array", 2⟩,
   ⟨some "nanoarrow_c_infer_ptype", some "nanoarrow_c_infer_ptype", 1⟩,
   ⟨some "nanoarrow_c_allocate_schema", some "nanoarrow_c_allocate_schema", 0⟩,
   ⟨some "nanoarrow_c_allocate_array", some "nanoarrow_c_allocate_array", 0⟩,
   ⟨some "nanoarrow_c_allocate_array_stream", some "nanoarrow_c_allocate_array_stream", 0⟩,
   ⟨some "nanoarrow_c_pointer", some "nanoarrow_c_pointer", 1⟩,
   ⟨some "nanoarrow_c_pointer_addr_dbl", some "nanoarrow_c_pointer_addr_dbl", 1⟩,
   ⟨some "nanoarrow_c_pointer_addr_chr", some "nanoarrow_c_pointer_addr_chr", 1⟩,
   ⟨some "nanoarrow_c_pointer_addr_pretty", some "nanoarrow_c_pointer_addr_pretty", 1⟩,
   ⟨some "nanoarrow_c_pointer_is_valid", some "nanoarrow_c_pointer_is_valid", 1⟩,
   ⟨some "nanoarrow_c_pointer_release", some "nanoarrow_c_pointer_release", 1⟩,
   ⟨some "nanoarrow_c_pointer_move", some "nanoarrow_c_pointer_move", 2⟩,
   ⟨some "nanoarrow_c_export_schema", some "nanoarrow_c_export_schema", 2⟩,
   ⟨some "nanoarrow_c_export_array", some "nanoarrow_c_export_array", 2⟩,
   ⟨some "nanoarrow_c_export_array_stream", some "nanoarrow_c_export_array_stream", 2⟩,
   ⟨some "nanoarrow_c_pointer_set_protected", some "nanoarrow_c_pointer_set_protected", 2⟩,
   ⟨some "nanoarrow_c_schema_init", some "nanoarrow_c_schema_init", 2⟩,
   ⟨some "nanoarrow_c_schema_init_date_time", some "nanoarrow_c_schema_init_date_time", 4⟩,
   ⟨some "nanoarrow_c_schema_init_decimal", some "nanoarrow_c_schema_init_decimal", 4⟩,
   ⟨some "nanoarrow_c_schema_init_fixed_size", some "nanoarrow_c_schema_init_fixed_size", 3⟩,
   ⟨some "nanoarrow_c_schema_to_list", some "nanoarrow_c_schema_to_list", 1⟩,
   ⟨some "nanoarrow_c_schema_parse", some "nanoarrow_c_schema_parse", 1⟩,
   ⟨some "nanoarrow_c_schema_format", some "nanoarrow_c_schema_format", 2⟩,
   ⟨some "nanoarrow_c_schema_set_format", some "nanoarrow_c_schema_set_format", 2⟩,
   ⟨some "nanoarrow_c_schema_set_name", some "nanoarrow_c_schema_set_name", 2⟩,
   ⟨some "nanoarrow_c_schema_set_metadata", some "nanoarrow_c_schema_set_metadata", 2⟩,
   ⟨some "nanoarrow_c_schema_set_flags", some "nanoarrow_c_schema_set_flags", 2⟩,
   ⟨some "nanoarrow_c_schema_set_children", some "nanoarrow_c_schema_set_children", 2⟩,
   ⟨some "nanoarrow_c_schema_set_dictionary", some "nanoarrow_c_schema_set_dictionary", 2⟩,
   ⟨some "nanoarrow_c_preserved_count", some "nanoarrow_c_preserved_count", 0⟩,
   ⟨some "nanoarrow_c_preserved_empty", some "nanoarrow_c_preserved_empty", 0⟩,
   ⟨some "nanoarrow_c_preserve_and_release_on_other_thread", some "nanoarrow_c_preserve_and_release_on_other_thread", 1⟩,
   ⟨some "nanoarrow_c_version", some "nanoarrow_c_version", 0⟩,
   ⟨some "nanoarrow_c_version_runtime", some "nanoarrow_c_version_runtime", 0⟩,
   ⟨none, none, 0⟩]

/-- The records of a table that `R_registerRoutines` reads: those before the first
record whose name is `NULL`. -/
def registered (table : List R_CallMethodDef) : List R_CallMethodDef :=
  table.takeWhile (fun e => e.name.isSome)

end RInit

namespace Pyexport

/-! ## Theorems: `CudaTemporaryContext` -/

/-- C7: `valid()` is true exactly when `cuInit`, `cuDeviceGet` and
`cuDevicePrimaryCtxRetain` all returned `CUDA_SUCCESS`, and the constructor stops at the
first failing call: after a failed `cuInit` the only driver call made is `cuInit`; after
a failed `cuDeviceGet` the calls are `cuInit`, `cuDeviceGet`, `cuGetErrorString` and
nothing is retained or pushed; after a failed `cuDevicePrimaryCtxRetain` there is no
`cuCtxPushCurrent` call and the context stack is unchanged. -/
theorem C7_construct_stops_at_first_failure (o : CudaOutcomes) (device_id : Int) (s : State) :
    ((CudaTemporaryContext.construct o device_id s).1.valid = true ↔
      o.cuInit = CUDA_SUCCESS ∧ o.cuDeviceGet = CUDA_SUCCESS ∧
        o.cuDevicePrimaryCtxRetain = CUDA_SUCCESS) ∧
    (o.cuInit ≠ CUDA_SUCCESS →
      (CudaTemporaryContext.construct o device_id s).2.events =
          s.events ++ [.call .cuInit o.cuInit] ∧
        (CudaTemporaryContext.construct o device_id s).2.stack = s.stack ∧
        (CudaTemporaryContext.construct o device_id s).2.retained = s.retained) ∧
    (o.cuInit = CUDA_SUCCESS → o.cuDeviceGet ≠ CUDA_SUCCESS →
      (CudaTemporaryContext.construct o device_id s).2.events =
          s.events ++ [.call .cuInit o.cuInit, .call .cuDeviceGet o.cuDeviceGet,
            .call .cuGetErrorString o.cuGetErrorString] ∧
        (CudaTemporaryContext.construct o device_id s).2.stack = s.stack ∧
        (CudaTemporaryContext.construct o device_id s).2.retained = s.retained) ∧
    (o.cuInit = CUDA_SUCCESS → o.cuDeviceGet = CUDA_SUCCESS →
        o.cuDevicePrimaryCtxRetain ≠ CUDA_SUCCESS →
      (CudaTemporaryContext.construct o device_id s).2.events =
          s.events ++ [.call .cuInit o.cuInit, .call .cuDeviceGet o.cuDeviceGet,
            .call .cuGetErrorString o.cuGetErrorString,
            .call .cuDevicePrimaryCtxRetain o.cuDevicePrimaryCtxRetain] ∧
        (CudaTemporaryContext.construct o device_id s).2.stack = s.stack ∧
        (CudaTemporaryContext.construct o device_id s).2.retained = s.retained) := by
  refine ⟨?_, ?_, ?_, ?_⟩
  · by_cases h1 : o.cuInit = CUDA_SUCCESS <;> by_cases h2 : o.cuDeviceGet = CUDA_SUCCESS <;>
      by_cases h3 : o.cuDevicePrimaryCtxRetain = CUDA_SUCCESS <;>
      simp [CudaTemporaryContext.construct, CudaTemporaryContext.valid, cuInit, cuDeviceGet,
        cuGetErrorString, cuDevicePrimaryCtxRetain, cuCtxPushCurrent, h1, h2, h3]
  · intro h1
    simp [CudaTemporaryContext.construct, cuInit, State.log, h1]
  · intro h1 h2
    simp [CudaTemporaryContext.construct, cuInit, cuDeviceGet, cuGetErrorString, State.log,
      h1, h2]
  · intro h1 h2 h3
    simp [CudaTemporaryContext.construct, cuInit, cuDeviceGet, cuGetErrorString,
      cuDevicePrimaryCtxRetain, State.log, h1, h2, h3]

/-- C7 at a run in which `cuDeviceGet` fails with code 101: three driver calls, no retain
and no push. -/
theorem C7_construct_stops_at_first_failure_witness :
    cudaDeviceGetFails.cuInit = CUDA_SUCCESS ∧ cudaDeviceGetFails.cuDeviceGet ≠ CUDA_SUCCESS ∧
    (CudaTemporaryContext.construct cudaDeviceGetFails 0 exampleState).2.events =
      exampleState.events ++ [.call .cuInit 0, .call .cuDeviceGet 101,
        .call .cuGetErrorString 0] ∧
    (CudaTemporaryContext.construct cudaDeviceGetFails 0 exampleState).2.stack =
      exampleState.stack :=
  ⟨by decide, by decide,
    ((C7_construct_stops_at_first_failure cudaDeviceGetFails 0 exampleState).2.2.1
      (by decide) (by decide)).1,
    ((C7_construct_stops_at_first_failure cudaDeviceGetFails 0 exampleState).2.2.1
      (by decide) (by decide)).2.1⟩

/-- Whenever `cuCtxPushCurrent` is not reached or succeeds, constructing and then
destroying a `CudaTemporaryContext` restores the context stack and every retain count. -/
theorem construct_destruct_balanced_of_push_ok (o : CudaOutcomes) (device_id : Int)
    (s : State) (hpush : o.cuCtxPushCurrent = CUDA_SUCCESS) :
    ((CudaTemporaryContext.construct o device_id s).1.destruct
        (CudaTemporaryContext.construct o device_id s).2).stack = s.stack ∧
    ((CudaTemporaryContext.construct o device_id s).1.destruct
        (CudaTemporaryContext.construct o device_id s).2).retained = s.retained := by
  by_cases h1 : o.cuInit = CUDA_SUCCESS <;> by_cases h2 : o.cuDeviceGet = CUDA_SUCCESS <;>
    by_cases h3 : o.cuDevicePrimaryCtxRetain = CUDA_SUCCESS <;>
    simp [CudaTemporaryContext.construct, CudaTemporaryContext.destruct, cuInit, cuDeviceGet,
      cuGetErrorString, cuDevicePrimaryCtxRetain, cuCtxPushCurrent, cuCtxPopCurrent,
      cuDevicePrimaryCtxRelease, State.log, h1, h2, h3, hpush]

/-- Popping the current context leaves every retain count alone. -/
theorem cuCtxPopCurrent_retained (s : State) : (cuCtxPopCurrent s).2.retained = s.retained := by
  unfold cuCtxPopCurrent
  split <;> rfl

/-- The retain count of every device is restored by construction followed by
destruction, whatever the four driver calls of the constructor answer. -/
theorem construct_destruct_retained (o : CudaOutcomes) (device_id : Int) (s : State) :
    ((CudaTemporaryContext.construct o device_id s).1.destruct
        (CudaTemporaryContext.construct o device_id s).2).retained = s.retained := by
  by_cases h1 : o.cuInit = CUDA_SUCCESS <;> by_cases h2 : o.cuDeviceGet = CUDA_SUCCESS <;>
    by_cases h3 : o.cuDevicePrimaryCtxRetain = CUDA_SUCCESS <;>
    by_cases h4 : o.cuCtxPushCurrent = CUDA_SUCCESS <;>
    simp [CudaTemporaryContext.construct, CudaTemporaryContext.destruct, cuInit, cuDeviceGet,
      cuGetErrorString, cuDevicePrimaryCtxRetain, cuCtxPushCurrent, cuDevicePrimaryCtxRelease,
      cuCtxPopCurrent_retained, State.log, h1, h2, h3, h4]

/-- C9 at the failing run: `cuInit`, `cuDeviceGet` and `cuDevicePrimaryCtxRetain` succeed
and `cuCtxPushCurrent` fails while context 7 is current. The object still counts as
valid, its destructor pops context 7, which it never pushed, and the context stack is
left empty instead of `[7]`; the retain count is back at its old value. -/
theorem C9_failed_push_pops_foreign_context :
    exampleState.stack = [7] ∧
    (CudaTemporaryContext.construct cudaPushFails 0 exampleState).1.valid = true ∧
    (CudaTemporaryContext.construct cudaPushFails 0 exampleState).2.stack = [7] ∧
    ((CudaTemporaryContext.construct cudaPushFails 0 exampleState).1.destruct
        (CudaTemporaryContext.construct cudaPushFails 0 exampleState).2).stack = [] ∧
    ((CudaTemporaryContext.construct cudaPushFails 0 exampleState).1.destruct
        (CudaTemporaryContext.construct cudaPushFails 0 exampleState).2).retained 0 =
      exampleState.retained 0 := by
  refine ⟨rfl, rfl, rfl, rfl, rfl⟩

/-! ## Theorems: the capsule destructors -/

/-- C1 at the failing input: after a run of `pyexport_make_device_array` in which every
call succeeds, object 10 is the capsule labelled "arrow_schema" around the schema at
address 2, whose `release` is the non-null callback 6. Its pointer lookup succeeds, and
`pycapsule_schema_deleter` only calls `ArrowFree`: no release callback is invoked and the
schema still carries its release pointer. -/
theorem C1_schema_deleter_never_releases :
    ∃ t s1 s2,
      pyexport_make_device_array nanoarrowAllOk cudaAllOk pyAllOk 1 2 exampleState =
        some (some t, s1) ∧
      s1.objs 10 =
        some ⟨1, .capsule 2 "arrow_schema" (some .pycapsule_schema_deleter)⟩ ∧
      PyCapsule_GetPointer s1 10 "arrow_schema" = 2 ∧
      s1.schemaRelease 2 = some 6 ∧
      pycapsule_schema_deleter 10 s1 = some s2 ∧
      s2.events = s1.events ++ [.free 2] ∧
      s2.schemaRelease 2 = some 6 :=
  ⟨_, _, _, rfl, rfl, rfl, rfl, rfl, rfl, rfl⟩

/-- On every capsule and in every state `pycapsule_schema_deleter` returns normally,
records at most one `ArrowFree` and nothing else, and leaves every schema release
pointer as it was: it never invokes a release callback. -/
theorem pycapsule_schema_deleter_never_releases (capsule : ObjId) (s : State) :
    ∃ s1,
      pycapsule_schema_deleter capsule s = some s1 ∧
      s1.schemaRelease = s.schemaRelease ∧
      (s1.events = s.events ∨ ∃ p, s1.events = s.events ++ [.free p]) := by
  by_cases h : PyCapsule_GetPointer s capsule "arrow_schema" = NULL
  · exact ⟨s, by simp [pycapsule_schema_deleter, h], rfl, Or.inl rfl⟩
  · exact ⟨ArrowFree (PyCapsule_GetPointer s capsule "arrow_schema") s,
      by simp [pycapsule_schema_deleter, h], rfl, Or.inr ⟨_, rfl⟩⟩

/-- C2: for a capsule labelled "arrow_device_array" around a non-null device array `p`,
`pycapsule_device_array_deleter` returns normally; when `array.release` is a callback
`fn` the new events are exactly one invocation of `fn` on `p` followed by one
`ArrowFree(p)`, and when it is null the only new event is one `ArrowFree(p)`. So the
number of release invocations is 1 if the release is non-null and 0 otherwise, and the
number of `ArrowFree` calls is 1 in both cases. -/
theorem C2_device_array_deleter_releases_iff_live (s : State) (capsule : ObjId) (rc : Nat)
    (p : Ptr) (d : Option Deleter)
    (hobj : s.objs capsule = some ⟨rc, .capsule p "arrow_device_array" d⟩)
    (hp : p ≠ NULL) :
    PyCapsule_GetPointer s capsule "arrow_device_array" = p ∧
    ∃ s1 new,
      pycapsule_device_array_deleter capsule s = some s1 ∧
      s1.events = s.events ++ new ∧
      (∀ fn, s.arrayRelease p = some fn → new = [.release fn p, .free p]) ∧
      (s.arrayRelease p = none → new = [.free p]) ∧
      new.countP Event.isRelease = (if s.arrayRelease p = none then 0 else 1) ∧
      new.countP Event.isFree = 1 ∧
      new.count (.free p) = 1 := by
  have hget : PyCapsule_GetPointer s capsule "arrow_device_array" = p := by
    simp [PyCapsule_GetPointer, hobj]
  refine ⟨hget, ?_⟩
  cases hr : s.arrayRelease p with
  | none =>
    refine ⟨ArrowFree p s, [.free p], ?_, ?_, ?_, ?_, ?_, ?_, ?_⟩ <;>
      simp [pycapsule_device_array_deleter, hget, hp, hr, ArrowFree, State.log, Event.isRelease,
        Event.isFree]
  | some fn =>
    refine ⟨ArrowFree p (invokeRelease fn p s), [.release fn p, .free p],
      ?_, ?_, ?_, ?_, ?_, ?_, ?_⟩ <;>
      simp [pycapsule_device_array_deleter, hget, hp, hr, ArrowFree, invokeRelease, State.log,
        Event.isRelease, Event.isFree]

/-- C2 at a capsule around the device array at address 1, whose release is callback 5:
one release invocation, then one free. -/
theorem C2_device_array_deleter_releases_iff_live_witness :
    deviceArrayCapsuleState.objs 10 =
      some ⟨0, .capsule 1 "arrow_device_array" (some .pycapsule_device_array_deleter)⟩ ∧
    (1 : Ptr) ≠ NULL ∧
    ∃ s1,
      pycapsule_device_array_deleter 10 deviceArrayCapsuleState = some s1 ∧
      s1.events = deviceArrayCapsuleState.events ++ [.release 5 1, .free 1] := by
  obtain ⟨-, s1, new, h1, h2, h3, -⟩ :=
    C2_device_array_deleter_releases_iff_live deviceArrayCapsuleState 10 0 1
      (some .pycapsule_device_array_deleter) rfl (by decide)
  exact ⟨rfl, by decide, s1, h1, by rw [h2, h3 5 rfl]⟩

/-! ## Theorems: `make_simple_device_array` -/

/-- With a non-null output device array, `make_simple_device_array` makes all fifteen
nanoarrow calls in source order, returns 0, and leaves in the output structures exactly
what the copy and the schema initialisation stored (null where the copy stored nothing). -/
theorem make_simple_device_array_run (o : NanoarrowOutcomes) (device_array2 schema : Ptr)
    (s : State) (h : device_array2 ≠ NULL) :
    ∃ s1,
      make_simple_device_array o device_array2 schema s = some (0, s1) ∧
      s1.events = s.events ++
        [.call .ArrowErrorSet o.ArrowErrorSet, .call .ArrowDeviceCpu 0,
          .call .ArrowDeviceCuda 0,
          .call .ArrowArrayInitFromType o.ArrowArrayInitFromType,
          .call .ArrowArrayStartAppending o.ArrowArrayStartAppending,
          .call .ArrowArrayAppendInt o.ArrowArrayAppendInt1,
          .call .ArrowArrayAppendInt o.ArrowArrayAppendInt2,
          .call .ArrowArrayAppendInt o.ArrowArrayAppendInt3,
          .call .ArrowArrayFinishBuildingDefault o.ArrowArrayFinishBuildingDefault,
          .call .ArrowDeviceArrayInit o.ArrowDeviceArrayInit,
          .call .ArrowDeviceArrayViewInit 0, .call .ArrowArrayViewInitFromType 0,
          .call .ArrowDeviceArrayViewSetArray o.ArrowDeviceArrayViewSetArray,
          .call .ArrowDeviceArrayViewCopy o.ArrowDeviceArrayViewCopy,
          .call .ArrowSchemaInitFromType o.ArrowSchemaInitFromType] ∧
      s1.arrayRelease = Function.update s.arrayRelease device_array2
        (match o.copyStores with
          | none => none
          | some v => v) ∧
      s1.schemaRelease =
        (match o.schemaStores with
          | none => s.schemaRelease
          | some v => Function.update s.schemaRelease schema v) ∧
      s1.objs = s.objs ∧ s1.nextId = s.nextId ∧ s1.stack = s.stack ∧
      s1.retained = s.retained := by
  cases hc : o.copyStores <;> cases hs : o.schemaStores <;>
    simp [make_simple_device_array, State.callOut, State.log, ArrowDeviceArrayViewCopy,
      ArrowSchemaInitFromType, h, hc, hs]

/-- C3, the claim as stated fails: in a run whose copy to the CUDA device reports the
non-success code 95, `make_simple_device_array` returns 0. -/
theorem C3_failed_copy_returns_zero :
    nanoarrowCopyFails.ArrowDeviceArrayViewCopy ≠ 0 ∧
    (make_simple_device_array nanoarrowCopyFails 1 2 exampleState).map (fun r => r.1) =
      some 0 :=
  ⟨by decide, rfl⟩

/-- C3 amended: `make_simple_device_array` drops every status. Whatever codes its calls
report, it goes on to make every later call (all fifteen, in source order, each recorded
with the code it reported) and returns 0 to its caller. -/
theorem C3_make_simple_device_array_always_returns_zero (o : NanoarrowOutcomes)
    (device_array2 schema : Ptr) (s : State) (h : device_array2 ≠ NULL) :
    ∃ s1,
      make_simple_device_array o device_array2 schema s = some (0, s1) ∧
      s1.events = s.events ++
        [.call .ArrowErrorSet o.ArrowErrorSet, .call .ArrowDeviceCpu 0,
          .call .ArrowDeviceCuda 0,
          .call .ArrowArrayInitFromType o.ArrowArrayInitFromType,
          .call .ArrowArrayStartAppending o.ArrowArrayStartAppending,
          .call .ArrowArrayAppendInt o.ArrowArrayAppendInt1,
          .call .ArrowArrayAppendInt o.ArrowArrayAppendInt2,
          .call .ArrowArrayAppendInt o.ArrowArrayAppendInt3,
          .call .ArrowArrayFinishBuildingDefault o.ArrowArrayFinishBuildingDefault,
          .call .ArrowDeviceArrayInit o.ArrowDeviceArrayInit,
          .call .ArrowDeviceArrayViewInit 0, .call .ArrowArrayViewInitFromType 0,
          .call .ArrowDeviceArrayViewSetArray o.ArrowDeviceArrayViewSetArray,
          .call .ArrowDeviceArrayViewCopy o.ArrowDeviceArrayViewCopy,
          .call .ArrowSchemaInitFromType o.ArrowSchemaInitFromType] := by
  obtain ⟨s1, h1, h2, _⟩ := make_simple_device_array_run o device_array2 schema s h
  exact ⟨s1, h1, h2⟩

/-- C3 amended, at the run whose copy fails: the result is still 0. -/
theorem C3_make_simple_device_array_always_returns_zero_witness :
    (1 : Ptr) ≠ NULL ∧
    ∃ s1,
      make_simple_device_array nanoarrowCopyFails 1 2 exampleState = some (0, s1) ∧
      s1.events = exampleState.events ++
        [.call .ArrowErrorSet 0, .call .ArrowDeviceCpu 0, .call .ArrowDeviceCuda 0,
          .call .ArrowArrayInitFromType 0, .call .ArrowArrayStartAppending 0,
          .call .ArrowArrayAppendInt 0, .call .ArrowArrayAppendInt 0,
          .call .ArrowArrayAppendInt 0, .call .ArrowArrayFinishBuildingDefault 0,
          .call .ArrowDeviceArrayInit 0, .call .ArrowDeviceArrayViewInit 0,
          .call .ArrowArrayViewInitFromType 0, .call .ArrowDeviceArrayViewSetArray 0,
          .call .ArrowDeviceArrayViewCopy 95, .call .ArrowSchemaInitFromType 0] :=
  ⟨by decide,
    C3_make_simple_device_array_always_returns_zero nanoarrowCopyFails 1 2 exampleState
      (by decide)⟩

/-! ## Theorems: `pyexport_make_device_array` -/

/-- Whether the constructed context is valid depends on the driver results only. -/
theorem construct_valid_indep (o : CudaOutcomes) (device_id : Int) (s s0 : State) :
    (CudaTemporaryContext.construct o device_id s).1.valid =
      (CudaTemporaryContext.construct o device_id s0).1.valid := by
  by_cases h1 : o.cuInit = CUDA_SUCCESS <;> by_cases h2 : o.cuDeviceGet = CUDA_SUCCESS <;>
    by_cases h3 : o.cuDevicePrimaryCtxRetain = CUDA_SUCCESS <;>
    simp [CudaTemporaryContext.construct, CudaTemporaryContext.valid, cuInit, cuDeviceGet,
      cuGetErrorString, cuDevicePrimaryCtxRetain, cuCtxPushCurrent, h1, h2, h3]

/-- The constructor touches neither native memory nor the Python heap, and records no
free, release or output event. -/
theorem construct_frame (o : CudaOutcomes) (device_id : Int) (s : State) :
    (CudaTemporaryContext.construct o device_id s).2.objs = s.objs ∧
    (CudaTemporaryContext.construct o device_id s).2.nextId = s.nextId ∧
    (CudaTemporaryContext.construct o device_id s).2.arrayRelease = s.arrayRelease ∧
    (CudaTemporaryContext.construct o device_id s).2.schemaRelease = s.schemaRelease ∧
    (CudaTemporaryContext.construct o device_id s).2.events.countP Event.isFree =
      s.events.countP Event.isFree ∧
    (CudaTemporaryContext.construct o device_id s).2.events.countP Event.isRelease =
      s.events.countP Event.isRelease ∧
    ∀ m, (CudaTemporaryContext.construct o device_id s).2.events.count (.cout m) =
      s.events.count (.cout m) := by
  by_cases h1 : o.cuInit = CUDA_SUCCESS <;> by_cases h2 : o.cuDeviceGet = CUDA_SUCCESS <;>
    by_cases h3 : o.cuDevicePrimaryCtxRetain = CUDA_SUCCESS <;>
    by_cases h4 : o.cuCtxPushCurrent = CUDA_SUCCESS <;>
    simp [CudaTemporaryContext.construct, cuInit, cuDeviceGet,
      cuGetErrorString, cuDevicePrimaryCtxRetain, cuCtxPushCurrent, State.log, h1, h2, h3, h4,
      Event.isFree, Event.isRelease, List.countP_cons, List.count_cons]

/-- The destructor touches neither native memory nor the Python heap, and records no
free, release or output event. -/
theorem destruct_frame (c : CudaTemporaryContext) (s : State) :
    (c.destruct s).objs = s.objs ∧ (c.destruct s).nextId = s.nextId ∧
    (c.destruct s).arrayRelease = s.arrayRelease ∧
    (c.destruct s).schemaRelease = s.schemaRelease ∧
    (c.destruct s).events.countP Event.isFree = s.events.countP Event.isFree ∧
    (c.destruct s).events.countP Event.isRelease = s.events.countP Event.isRelease ∧
    ∀ m, (c.destruct s).events.count (.cout m) = s.events.count (.cout m) := by
  unfold CudaTemporaryContext.destruct cuCtxPopCurrent cuDevicePrimaryCtxRelease
  cases c.initialized_ <;> cases c.device_ <;> cases s.stack <;>
    simp [State.log, Event.isFree, Event.isRelease, List.countP_cons, List.count_cons] <;>
    split <;> simp [Event.isFree, Event.isRelease, List.countP_cons, List.count_cons]

/-- Three consecutive object identities are distinct. -/
theorem objId_facts (n : Nat) :
    ¬ n = n + 1 + 1 ∧ ¬ n + 1 = n + 1 + 1 ∧ ¬ n + 1 + 1 = n ∧ ¬ n + 1 + 1 = n + 1 ∧
    ¬ n = n + 1 ∧ ¬ n + 1 = n := by
  omega

/-- The heap updates made by `pyexport_make_device_array`, in normal form. -/
theorem update_shape {β : Type} (f : Nat → β) (n : Nat) (c1 d2 c2 t c3 d1 : β) :
    Function.update (Function.update (Function.update (Function.update (Function.update
      (Function.update f n c1) (n + 1) d2) n c2) (n + 1 + 1) t) n c3) (n + 1) d1 =
    Function.update (Function.update (Function.update f n c3) (n + 1) d1) (n + 2) t := by
  funext i
  simp only [Function.update_apply]
  split_ifs <;> first | rfl | omega

/-- With both structures allocated and every Python allocation succeeding,
`pyexport_make_device_array` returns a new tuple; the heap gains the schema capsule,
the device-array capsule and the tuple, each with one reference, and nothing is freed or
released. -/
theorem pyexport_make_device_array_run (no : NanoarrowOutcomes) (co : CudaOutcomes)
    (pd ps : Ptr) (s : State) (hpd : pd ≠ NULL) (hps : ps ≠ NULL) :
    ∃ s1,
      pyexport_make_device_array no co ⟨true, true, true⟩ pd ps s =
        some (some (s.nextId + 2), s1) ∧
      s1.objs = Function.update (Function.update (Function.update s.objs s.nextId
          (some ⟨1, .capsule ps "arrow_schema" (some .pycapsule_schema_deleter)⟩))
          (s.nextId + 1)
          (some ⟨1, .capsule pd "arrow_device_array" (some .pycapsule_device_array_deleter)⟩))
          (s.nextId + 2) (some ⟨1, .tuple [s.nextId + 1, s.nextId]⟩) ∧
      s1.arrayRelease = Function.update s.arrayRelease pd
        (match no.copyStores with
          | none => none
          | some v => v) ∧
      s1.schemaRelease = Function.update s.schemaRelease ps
        (match no.schemaStores with
          | none => none
          | some v => v) ∧
      s1.events.countP Event.isFree = s.events.countP Event.isFree ∧
      s1.events.countP Event.isRelease = s.events.countP Event.isRelease ∧
      s1.events.count (.cout "Failed to initialize CUDA context") =
        s.events.count (.cout "Failed to initialize CUDA context") +
          (if (CudaTemporaryContext.construct co 0 s).1.valid = true then 0 else 1) := by
  obtain ⟨s2, hm, hev, har, hsr, hob, hid, -, -⟩ := make_simple_device_array_run no pd ps
    { s with schemaRelease := Function.update s.schemaRelease ps none } hpd
  simp only at har hsr hob hid hev
  have c1 : s2.events.countP Event.isFree = s.events.countP Event.isFree := by
    rw [hev]; simp [Event.isFree, List.countP_cons]
  have c2 : s2.events.countP Event.isRelease = s.events.countP Event.isRelease := by
    rw [hev]; simp [Event.isRelease, List.countP_cons]
  have c3 : ∀ m, s2.events.count (.cout m) = s.events.count (.cout m) := by
    intro m; rw [hev]; simp [List.count_cons]
  unfold pyexport_make_device_array
  rw [if_neg hps]
  simp only [hm]
  have hv := construct_valid_indep co 0 s2 s
  have f := construct_frame co 0 s2
  rcases hc : CudaTemporaryContext.construct co 0 s2 with ⟨ctx, s3⟩
  rw [hc] at hv f
  rw [hob, hid, har, hsr, c1, c2] at f
  simp only [c3] at f hv
  obtain ⟨f1, f2, f3, f4, f5, f6, f7⟩ := f
  obtain ⟨e1, e2, e3, e4, e5, e6⟩ := objId_facts s.nextId
  cases hss : no.schemaStores <;> rw [hss] at f4 <;> simp only [Function.update_idem] at f4 <;>
    cases hv2 : (CudaTemporaryContext.construct co 0 s).1.valid <;> rw [hv2] at hv <;>
    simp [PyCapsule_New, hps, hpd, PyTuple_Pack, Py_INCREF, Py_DECREF, State.log, destruct_frame,
      Function.update_apply, f1, f2, f3, f4, f5, f6, f7, hv, e1, e2, e3, e4, e5, e6,
      Event.isFree, Event.isRelease, List.countP_cons, List.count_cons] <;>
    exact update_shape _ _ _ _ _ _ _ _

/-- A run that returns a tuple had both structures allocated and every Python
allocation succeed. -/
theorem pyexport_make_device_array_tuple_inv (no : NanoarrowOutcomes) (co : CudaOutcomes)
    (po : PyOutcomes) (pd ps : Ptr) (s : State) (t : ObjId) (s1 : State)
    (h : pyexport_make_device_array no co po pd ps s = some (some t, s1)) :
    pd ≠ NULL ∧ ps ≠ NULL ∧ po = ⟨true, true, true⟩ := by
  by_cases hps : ps = NULL
  · simp [pyexport_make_device_array, hps] at h
  by_cases hpd : pd = NULL
  · simp [pyexport_make_device_array, hps, make_simple_device_array, hpd] at h
  refine ⟨hpd, hps, ?_⟩
  obtain ⟨s2, hm, -⟩ := make_simple_device_array_run no pd ps
    { s with schemaRelease := Function.update s.schemaRelease ps none } hpd
  unfold pyexport_make_device_array at h
  rw [if_neg hps] at h
  simp only [hm] at h
  rcases hc : CudaTemporaryContext.construct co 0 s2 with ⟨ctx, s3⟩
  rw [hc] at h
  simp only at h
  obtain ⟨a, b, c⟩ := po
  cases a
  · simp [PyCapsule_New] at h
  cases b
  · cases c
    · simp [PyCapsule_New, hps, hpd, PyTuple_Pack] at h
      split at h
      · simp at h
      · simp [Py_DECREF] at h
    · simp [PyCapsule_New, hps, hpd, PyTuple_Pack, Py_INCREF] at h
  cases c
  · simp [PyCapsule_New, hps, hpd, PyTuple_Pack] at h
    split at h
    · simp at h
    · split at h <;> simp at h
  · rfl

/-- Dropping the only reference to the result tuple runs the schema destructor and then
the device-array destructor, and removes the three objects. -/
theorem discard_result_tuple (s1 : State) (n : Nat) (pd ps : Ptr) (hpd : pd ≠ NULL)
    (hps : ps ≠ NULL) (f : ObjId → Option PyEntry)
    (hobjs : s1.objs = Function.update (Function.update (Function.update f n
          (some ⟨1, .capsule ps "arrow_schema" (some .pycapsule_schema_deleter)⟩))
          (n + 1)
          (some ⟨1, .capsule pd "arrow_device_array" (some .pycapsule_device_array_deleter)⟩))
          (n + 2) (some ⟨1, .tuple [n + 1, n]⟩))
    (fuel : Nat) :
    ∃ s2,
      Py_DECREF (fuel + 2) (some (n + 2)) s1 = some s2 ∧
      s2.events = s1.events ++
        ([.destructor .pycapsule_schema_deleter n, .free ps,
          .destructor .pycapsule_device_array_deleter (n + 1)] ++
        (match s1.arrayRelease pd with
          | some fn => [.release fn pd]
          | none => []) ++ [.free pd]) ∧
      s2.objs (n + 2) = none ∧ s2.objs (n + 1) = none ∧ s2.objs n = none := by
  have e1 : ¬ n = n + 2 := by omega
  have e2 : ¬ n + 1 = n + 2 := by omega
  have e3 : ¬ n + 2 = n := by omega
  have e4 : ¬ n + 2 = n + 1 := by omega
  have e5 : ¬ n = n + 1 := by omega
  have e6 : ¬ n + 1 = n := by omega
  cases hr : s1.arrayRelease pd <;>
    simp [Py_DECREF, hobjs, Function.update_apply, callDeleter, pycapsule_schema_deleter,
      pycapsule_device_array_deleter, PyCapsule_GetPointer, ArrowFree, invokeRelease, State.log,
      hpd, hps, hr, e1, e2, e3, e4, e5, e6]

/-- Reading the three new objects out of the final heap. -/
theorem result_lookups (s1 : State) (n : Nat) (a b c : Option PyEntry)
    (f : ObjId → Option PyEntry)
    (hobjs : s1.objs = Function.update (Function.update (Function.update f n a) (n + 1) b)
      (n + 2) c) :
    s1.objs (n + 2) = c ∧ s1.objs (n + 1) = b ∧ s1.objs n = a := by
  have e1 : ¬ n = n + 2 := by omega
  have e2 : ¬ n + 1 = n + 2 := by omega
  have e5 : ¬ n = n + 1 := by omega
  simp [hobjs, Function.update_apply, e1, e2, e5]

/-- C4, the claim as stated fails: in the run from `exampleState` in which `cuInit` fails
with code 100, `valid()` is false, the diagnostic is printed, and the function still
returns a tuple whose first item is the device-array capsule around the device array at
address 1, which is still populated (release callback 5) and was not freed. -/
theorem C4_invalid_context_still_hands_out_capsules :
    (CudaTemporaryContext.construct cudaInitFails 0 exampleState).1.valid = false ∧
    ∃ t s1,
      pyexport_make_device_array nanoarrowAllOk cudaInitFails pyAllOk 1 2 exampleState =
        some (some t, s1) ∧
      s1.events =
        [.call .ArrowErrorSet 0, .call .ArrowDeviceCpu 0, .call .ArrowDeviceCuda 0,
          .call .ArrowArrayInitFromType 0, .call .ArrowArrayStartAppending 0,
          .call .ArrowArrayAppendInt 0, .call .ArrowArrayAppendInt 0,
          .call .ArrowArrayAppendInt 0, .call .ArrowArrayFinishBuildingDefault 0,
          .call .ArrowDeviceArrayInit 0, .call .ArrowDeviceArrayViewInit 0,
          .call .ArrowArrayViewInitFromType 0, .call .ArrowDeviceArrayViewSetArray 0,
          .call .ArrowDeviceArrayViewCopy 0, .call .ArrowSchemaInitFromType 0,
          .call .cuInit 100, .cout "Failed to initialize CUDA context"] ∧
      s1.objs t = some ⟨1, .tuple [11, 10]⟩ ∧
      s1.objs 11 =
        some ⟨1, .capsule 1 "arrow_device_array" (some .pycapsule_device_array_deleter)⟩ ∧
      s1.arrayRelease 1 = some 5 :=
  ⟨rfl, _, _, rfl, rfl, rfl, rfl, rfl⟩

/-- C4 amended: when `valid()` is false (which depends on the driver results only, see
`construct_valid_indep`) the function prints "Failed to initialize CUDA context" once
and carries on. With both structures allocated and every Python allocation
succeeding it returns a tuple whose first item is the capsule around the device array,
and the run frees nothing and releases nothing. -/
theorem C4_invalid_context_is_reported_not_fatal (no : NanoarrowOutcomes) (co : CudaOutcomes)
    (pd ps : Ptr) (s : State) (hpd : pd ≠ NULL) (hps : ps ≠ NULL)
    (hinvalid : (CudaTemporaryContext.construct co 0 s).1.valid = false) :
    ∃ t s1,
      pyexport_make_device_array no co ⟨true, true, true⟩ pd ps s = some (some t, s1) ∧
      s1.events.count (.cout "Failed to initialize CUDA context") =
        s.events.count (.cout "Failed to initialize CUDA context") + 1 ∧
      (∃ d c, s1.objs t = some ⟨1, .tuple [d, c]⟩ ∧
        s1.objs d =
          some ⟨1, .capsule pd "arrow_device_array" (some .pycapsule_device_array_deleter)⟩) ∧
      s1.events.countP Event.isFree = s.events.countP Event.isFree ∧
      s1.events.countP Event.isRelease = s.events.countP Event.isRelease := by
  obtain ⟨s1, h, hobjs, -, -, hf, hr, hc⟩ := pyexport_make_device_array_run no co pd ps s hpd hps
  obtain ⟨l1, l2, -⟩ := result_lookups s1 s.nextId _ _ _ _ hobjs
  rw [hinvalid] at hc
  exact ⟨_, s1, h, by simpa using hc, ⟨_, _, l1, l2⟩, hf, hr⟩

/-- C4 amended, at the run in which `cuInit` fails with code 100. -/
theorem C4_invalid_context_is_reported_not_fatal_witness :
    (1 : Ptr) ≠ NULL ∧ (2 : Ptr) ≠ NULL ∧
    (CudaTemporaryContext.construct cudaInitFails 0 exampleState).1.valid = false ∧
    ∃ t s1,
      pyexport_make_device_array nanoarrowAllOk cudaInitFails ⟨true, true, true⟩ 1 2
        exampleState = some (some t, s1) ∧
      s1.events.count (.cout "Failed to initialize CUDA context") =
        exampleState.events.count (.cout "Failed to initialize CUDA context") + 1 ∧
      (∃ d c, s1.objs t = some ⟨1, .tuple [d, c]⟩ ∧
        s1.objs d =
          some ⟨1, .capsule 1 "arrow_device_array" (some .pycapsule_device_array_deleter)⟩) ∧
      s1.events.countP Event.isFree = exampleState.events.countP Event.isFree ∧
      s1.events.countP Event.isRelease = exampleState.events.countP Event.isRelease :=
  ⟨by decide, by decide, rfl,
    C4_invalid_context_is_reported_not_fatal nanoarrowAllOk cudaInitFails 1 2 exampleState
      (by decide) (by decide) rfl⟩

/-- C5: every run that returns an object returns a 2-tuple whose first item is a capsule
labelled "arrow_device_array" around the device array with destructor
`pycapsule_device_array_deleter` and whose second item is a capsule labelled
"arrow_schema" around the schema with destructor `pycapsule_schema_deleter`. The lookup
each destructor makes returns the wrapped non-null pointer, so each destructor, run on
its capsule, gets as far as `ArrowFree` of the wrapped structure. -/
theorem C5_result_is_device_array_then_schema (no : NanoarrowOutcomes) (co : CudaOutcomes)
    (po : PyOutcomes) (pd ps : Ptr) (s : State) (t : ObjId) (s1 : State)
    (h : pyexport_make_device_array no co po pd ps s = some (some t, s1)) :
    ∃ d c,
      s1.objs t = some ⟨1, .tuple [d, c]⟩ ∧
      s1.objs d =
        some ⟨1, .capsule pd "arrow_device_array" (some .pycapsule_device_array_deleter)⟩ ∧
      s1.objs c = some ⟨1, .capsule ps "arrow_schema" (some .pycapsule_schema_deleter)⟩ ∧
      PyCapsule_GetPointer s1 d "arrow_device_array" = pd ∧ pd ≠ NULL ∧
      PyCapsule_GetPointer s1 c "arrow_schema" = ps ∧ ps ≠ NULL ∧
      (∃ s2, pycapsule_device_array_deleter d s1 = some s2 ∧
        s2.events.getLast? = some (.free pd)) ∧
      (∃ s2, pycapsule_schema_deleter c s1 = some s2 ∧
        s2.events.getLast? = some (.free ps)) := by
  obtain ⟨hpd, hps, rfl⟩ := pyexport_make_device_array_tuple_inv no co po pd ps s t s1 h
  obtain ⟨s0, h0, hobjs, -⟩ := pyexport_make_device_array_run no co pd ps s hpd hps
  rw [h0] at h
  simp only [Option.some.injEq, Prod.mk.injEq] at h
  obtain ⟨rfl, rfl⟩ := h
  obtain ⟨l1, l2, l3⟩ := result_lookups s0 s.nextId _ _ _ _ hobjs
  refine ⟨_, _, l1, l2, l3, ?_, hpd, ?_, hps, ?_, ?_⟩
  · simp [PyCapsule_GetPointer, l2]
  · simp [PyCapsule_GetPointer, l3]
  · cases hr : s0.arrayRelease pd <;>
      simp [pycapsule_device_array_deleter, PyCapsule_GetPointer, l2, hpd, hr, ArrowFree,
        invokeRelease, State.log]
  · simp [pycapsule_schema_deleter, PyCapsule_GetPointer, l3, hps, ArrowFree, State.log]

/-- C5 at the run from `exampleState` in which every call succeeds. -/
theorem C5_result_is_device_array_then_schema_witness :
    ∃ t s1,
      pyexport_make_device_array nanoarrowAllOk cudaAllOk pyAllOk 1 2 exampleState =
        some (some t, s1) ∧
      ∃ d c,
        s1.objs t = some ⟨1, .tuple [d, c]⟩ ∧
        s1.objs d =
          some ⟨1, .capsule 1 "arrow_device_array" (some .pycapsule_device_array_deleter)⟩ ∧
        s1.objs c = some ⟨1, .capsule 2 "arrow_schema" (some .pycapsule_schema_deleter)⟩ ∧
        PyCapsule_GetPointer s1 d "arrow_device_array" = 1 ∧ (1 : Ptr) ≠ NULL ∧
        PyCapsule_GetPointer s1 c "arrow_schema" = 2 ∧ (2 : Ptr) ≠ NULL ∧
        (∃ s2, pycapsule_device_array_deleter d s1 = some s2 ∧
          s2.events.getLast? = some (.free 1)) ∧
        (∃ s2, pycapsule_schema_deleter c s1 = some s2 ∧
          s2.events.getLast? = some (.free 2)) :=
  ⟨_, _, rfl,
    C5_result_is_device_array_then_schema nanoarrowAllOk cudaAllOk pyAllOk 1 2 exampleState _ _
      rfl⟩

/-- C6: `make_simple_device_array` leaves in `array.release` of the output device array
what the copy stored there, and null when the copy stored nothing, whatever the memory
held before; after a run of `pyexport_make_device_array` that returns a tuple the same
holds for the device array, and the schema `release` is what the schema initialisation
stored, null when it stored nothing. So in every run in which the copy does not write
its output, the device array release is null, the destructor of the "arrow_device_array"
capsule only calls `ArrowFree`, and discarding the result tuple invokes no release
callback. -/
theorem C6_release_is_null_until_populated (no : NanoarrowOutcomes) (co : CudaOutcomes)
    (po : PyOutcomes) (pd ps : Ptr) (s : State) (t : ObjId) (s1 : State)
    (h : pyexport_make_device_array no co po pd ps s = some (some t, s1)) :
    (∀ s0, ∃ s2, make_simple_device_array no pd ps s0 = some (0, s2) ∧
      s2.arrayRelease pd =
        (match no.copyStores with
          | none => none
          | some v => v)) ∧
    s1.arrayRelease pd =
      (match no.copyStores with
        | none => none
        | some v => v) ∧
    s1.schemaRelease ps =
      (match no.schemaStores with
        | none => none
        | some v => v) ∧
    (no.copyStores = none →
      s1.arrayRelease pd = none ∧
      ∃ d c, s1.objs t = some ⟨1, .tuple [d, c]⟩ ∧
        (∃ s2, pycapsule_device_array_deleter d s1 = some s2 ∧
          s2.events = s1.events ++ [.free pd]) ∧
        ∀ fuel, ∃ s2 new, Py_DECREF (fuel + 2) (some t) s1 = some s2 ∧
          s2.events = s1.events ++ new ∧ new.countP Event.isRelease = 0) := by
  obtain ⟨hpd, hps, rfl⟩ := pyexport_make_device_array_tuple_inv no co po pd ps s t s1 h
  obtain ⟨s0, h0, hobjs, har, hsr, -⟩ := pyexport_make_device_array_run no co pd ps s hpd hps
  rw [h0] at h
  simp only [Option.some.injEq, Prod.mk.injEq] at h
  obtain ⟨rfl, rfl⟩ := h
  obtain ⟨l1, l2, l3⟩ := result_lookups s0 s.nextId _ _ _ _ hobjs
  refine ⟨?_, ?_, ?_, ?_⟩
  · intro s3
    obtain ⟨s2, hm, -, har2, -⟩ := make_simple_device_array_run no pd ps s3 hpd
    exact ⟨s2, hm, by simp [har2]⟩
  · simp [har]
  · simp [hsr]
  · intro hcopy
    have hnull : s0.arrayRelease pd = none := by simp [har, hcopy]
    refine ⟨hnull, _, _, l1, ?_, ?_⟩
    · simp [pycapsule_device_array_deleter, PyCapsule_GetPointer, l2, hpd, hnull, ArrowFree,
        State.log]
    · intro fuel
      obtain ⟨s2, hd, hev, -⟩ := discard_result_tuple s0 s.nextId pd ps hpd hps _ hobjs fuel
      refine ⟨s2, _, hd, hev, ?_⟩
      simp [hnull, Event.isRelease, List.countP_cons]

/-- C6 at the run in which the copy fails with code 95 and leaves its output alone,
starting from memory that holds the stale release pointer 99. -/
theorem C6_release_is_null_until_populated_witness :
    pyexport_make_device_array nanoarrowCopyFails cudaAllOk pyAllOk 1 2 exampleState =
      some (some 12, exampleFinalCopyFails) ∧
    nanoarrowCopyFails.copyStores = none ∧
    exampleState.arrayRelease 1 = some 99 ∧
    exampleFinalCopyFails.arrayRelease 1 = none ∧
    ∃ s2 new, Py_DECREF 2 (some 12) exampleFinalCopyFails = some s2 ∧
      s2.events = exampleFinalCopyFails.events ++ new ∧ new.countP Event.isRelease = 0 := by
  have h := (C6_release_is_null_until_populated nanoarrowCopyFails cudaAllOk pyAllOk 1 2
    exampleState 12 exampleFinalCopyFails rfl).2.2.2 rfl
  obtain ⟨h1, d, c, -, -, h2⟩ := h
  exact ⟨rfl, rfl, rfl, h1, h2 0⟩

/-- C8: after every run that returns a tuple, the tuple holds the device-array capsule
and the schema capsule, two different objects, each with reference count 1. Dropping
the reference to the tuple returns normally, runs each capsule destructor exactly once,
calls `ArrowFree` once per wrapped structure (twice in all), invokes the release of the
device array once when it is non-null and never otherwise, and leaves none of the three
objects alive. This holds for every depth bound of at least 2. -/
theorem C8_tuple_owns_each_capsule_once (no : NanoarrowOutcomes) (co : CudaOutcomes)
    (po : PyOutcomes) (pd ps : Ptr) (s : State) (t : ObjId) (s1 : State)
    (h : pyexport_make_device_array no co po pd ps s = some (some t, s1)) (fuel : Nat) :
    ∃ d c,
      d ≠ c ∧
      s1.objs t = some ⟨1, .tuple [d, c]⟩ ∧
      s1.objs d =
        some ⟨1, .capsule pd "arrow_device_array" (some .pycapsule_device_array_deleter)⟩ ∧
      s1.objs c = some ⟨1, .capsule ps "arrow_schema" (some .pycapsule_schema_deleter)⟩ ∧
      ∃ s2 new,
        Py_DECREF (fuel + 2) (some t) s1 = some s2 ∧
        s2.events = s1.events ++ new ∧
        new = [.destructor .pycapsule_schema_deleter c, .free ps,
            .destructor .pycapsule_device_array_deleter d] ++
          (match s1.arrayRelease pd with
            | some fn => [.release fn pd]
            | none => []) ++ [.free pd] ∧
        new.count (.destructor .pycapsule_device_array_deleter d) = 1 ∧
        new.count (.destructor .pycapsule_schema_deleter c) = 1 ∧
        new.countP Event.isFree = 2 ∧
        new.countP Event.isRelease = (if s1.arrayRelease pd = none then 0 else 1) ∧
        s2.objs t = none ∧ s2.objs d = none ∧ s2.objs c = none := by
  obtain ⟨hpd, hps, rfl⟩ := pyexport_make_device_array_tuple_inv no co po pd ps s t s1 h
  obtain ⟨s0, h0, hobjs, -⟩ := pyexport_make_device_array_run no co pd ps s hpd hps
  rw [h0] at h
  simp only [Option.some.injEq, Prod.mk.injEq] at h
  obtain ⟨rfl, rfl⟩ := h
  obtain ⟨l1, l2, l3⟩ := result_lookups s0 s.nextId _ _ _ _ hobjs
  obtain ⟨s2, hd, hev, g1, g2, g3⟩ := discard_result_tuple s0 s.nextId pd ps hpd hps _ hobjs fuel
  refine ⟨s.nextId + 1, s.nextId, Nat.succ_ne_self _, l1, l2, l3, s2, _, hd, hev, rfl,
    ?_, ?_, ?_, ?_, g1, g2, g3⟩ <;>
    cases hr : s0.arrayRelease pd <;>
    simp [Event.isFree, Event.isRelease, List.countP_cons, List.count_cons]

/-- C8 at the run from `exampleState` in which every call succeeds. -/
theorem C8_tuple_owns_each_capsule_once_witness :
    pyexport_make_device_array nanoarrowAllOk cudaAllOk pyAllOk 1 2 exampleState =
      some (some 12, exampleFinalOk) ∧
    exampleFinalOk.arrayRelease 1 = some 5 ∧
    ∃ d c s2 new,
      exampleFinalOk.objs 12 = some ⟨1, .tuple [d, c]⟩ ∧
      Py_DECREF 2 (some 12) exampleFinalOk = some s2 ∧
      s2.events = exampleFinalOk.events ++ new ∧
      new = [.destructor .pycapsule_schema_deleter c, .free 2,
            .destructor .pycapsule_device_array_deleter d] ++
          (match exampleFinalOk.arrayRelease 1 with
            | some fn => [.release fn 1]
            | none => []) ++ [.free 1] := by
  obtain ⟨d, c, -, h1, -, -, s2, new, h2, h3, h4, -⟩ :=
    C8_tuple_owns_each_capsule_once nanoarrowAllOk cudaAllOk pyAllOk 1 2 exampleState 12
      exampleFinalOk rfl 0
  exact ⟨rfl, rfl, d, c, s2, new, h1, h2, h3, h4⟩

end Pyexport

namespace RInit

/-! ## Theorems: the R call table -/

set_option maxRecDepth 100000 in
/-- C10: `CallEntries` ends with the terminator `{NULL, NULL, 0}` and no record before
it has a null name. Every record before the terminator names a declared prototype: its
registered name and the function it points to are the name of that prototype and its
argument count is the number of `SEXP` parameters of that prototype (0 for `(void)`).
Every declared prototype is registered by exactly one record, whether counted by name or
by function pointer; no prototype is declared twice, and the table has as many records
before the terminator as there are prototypes. -/
theorem C10_call_table_matches_declarations :
    CallEntries.getLast? = some ⟨none, none, 0⟩ ∧
    registered CallEntries = CallEntries.dropLast ∧
    (∀ e ∈ CallEntries.dropLast, ∃ d ∈ declarations,
      e.name = some d.name ∧ e.fn = some d.name ∧ e.numArgs = (d.params.length : Int)) ∧
    (∀ d ∈ declarations,
      CallEntries.dropLast.countP (fun e => e.name = some d.name) = 1 ∧
      CallEntries.dropLast.countP (fun e => e.fn = some d.name) = 1) ∧
    (declarations.map (fun d => d.name)).Nodup ∧
    CallEntries.dropLast.length = declarations.length := by
  decide

end RInit
